import Mathlib

/-!
Verification development for the GEBCO 3D viewer (src/main.js).

The JavaScript source is shallowly embedded: JS numbers are modelled by `JVal`
(an exact rational together with the three non-finite values NaN, Infinity and
-Infinity, with IEEE-style arithmetic on the non-finite values), arrays by
lists, thrown exceptions by `Except`, and the mutable scene (terrain mesh plus
base plate) by explicit state passing.
-/

/-- A JavaScript number: a finite value (modelled exactly by a rational) or one
of the non-finite values NaN, Infinity, -Infinity. -/
inductive JVal where
  | num : ℚ → JVal
  | nan : JVal
  | inf : JVal
  | ninf : JVal
deriving DecidableEq, Repr

/-- JS Number.isFinite. -/
def JVal.isFinite : JVal → Bool
  | .num _ => true
  | _ => false

/-- JS unary minus. -/
def jneg : JVal → JVal
  | .num q => .num (-q)
  | .nan => .nan
  | .inf => .ninf
  | .ninf => .inf

/-- JS addition (IEEE semantics on non-finite values). -/
def jadd : JVal → JVal → JVal
  | .num a, .num b => .num (a + b)
  | .nan, _ => .nan
  | _, .nan => .nan
  | .inf, .ninf => .nan
  | .ninf, .inf => .nan
  | .inf, _ => .inf
  | _, .inf => .inf
  | .ninf, _ => .ninf
  | _, .ninf => .ninf

/-- JS subtraction. -/
def jsub (a b : JVal) : JVal := jadd a (jneg b)

/-- JS multiplication (IEEE semantics: Infinity times zero is NaN, signs
propagate). -/
def jmul : JVal → JVal → JVal
  | .num a, .num b => .num (a * b)
  | .nan, _ => .nan
  | _, .nan => .nan
  | .inf, .inf => .inf
  | .inf, .ninf => .ninf
  | .ninf, .inf => .ninf
  | .ninf, .ninf => .inf
  | .inf, .num b => if b = 0 then .nan else if 0 < b then .inf else .ninf
  | .num a, .inf => if a = 0 then .nan else if 0 < a then .inf else .ninf
  | .ninf, .num b => if b = 0 then .nan else if 0 < b then .ninf else .inf
  | .num a, .ninf => if a = 0 then .nan else if 0 < a then .ninf else .inf

/-- JS division by two (used for bounding-box centers and the plate offset). -/
def jhalf : JVal → JVal
  | .num q => .num (q / 2)
  | .nan => .nan
  | .inf => .inf
  | .ninf => .ninf

/-- JS Math.abs. -/
def jabs : JVal → JVal
  | .num q => .num |q|
  | .nan => .nan
  | .inf => .inf
  | .ninf => .inf

/-- JS Math.max (NaN-propagating). -/
def jmax : JVal → JVal → JVal
  | .nan, _ => .nan
  | _, .nan => .nan
  | .inf, _ => .inf
  | _, .inf => .inf
  | .ninf, b => b
  | a, .ninf => a
  | .num a, .num b => .num (max a b)

/-- The JS comparison a less-or-equal b (false whenever either side is NaN). -/
def jleB : JVal → JVal → Bool
  | .num a, .num b => decide (a ≤ b)
  | .nan, _ => false
  | _, .nan => false
  | .inf, .inf => true
  | .inf, _ => false
  | _, .inf => true
  | .ninf, _ => true
  | _, .ninf => false

/-- The constant target height span of the normalization in
buildTerrainFromGrid (the literal 0.3 in the source). -/
def FIXED_VISUAL_SCALE : ℚ := 3 / 10

/-- One step of the elevation min/max scan of buildTerrainFromGrid: non-finite
values are skipped; `none` models the Infinity / -Infinity initial sentinels. -/
def scanStep (st : Option ℚ × Option ℚ) (v : JVal) : Option ℚ × Option ℚ :=
  match v with
  | .num q =>
    (some (match st.1 with
           | none => q
           | some m => if q < m then q else m),
     some (match st.2 with
           | none => q
           | some m => if m < q then q else m))
  | _ => st

/-- The double loop of buildTerrainFromGrid that scans elevationGrid for its
finite minimum and maximum (row index over the rows, column index from 0 to
lonLength - 1, out-of-range reads giving undefined, modelled as NaN). -/
def scanMinMax (lonLength : Nat) (grid : List (List JVal)) : Option ℚ × Option ℚ :=
  grid.foldl
    (fun st row => (List.range lonLength).foldl (fun st c => scanStep st (row.getD c JVal.nan)) st)
    (none, none)

/-- minElev of buildTerrainFromGrid (0 when no finite value exists). -/
def minElevOf (lonLength : Nat) (grid : List (List JVal)) : ℚ :=
  ((scanMinMax lonLength grid).1).getD 0

/-- maxElev of buildTerrainFromGrid (0 when no finite value exists). -/
def maxElevOf (lonLength : Nat) (grid : List (List JVal)) : ℚ :=
  ((scanMinMax lonLength grid).2).getD 0

/-- elevRange of buildTerrainFromGrid: the scanned span floored at 1e-6. -/
def elevRangeOf (lonLength : Nat) (grid : List (List JVal)) : ℚ :=
  max (maxElevOf lonLength grid - minElevOf lonLength grid) (1 / 1000000)

/-- zScaleBase of buildTerrainFromGrid. -/
def zScaleBaseOf (lonLength : Nat) (grid : List (List JVal)) : ℚ :=
  FIXED_VISUAL_SCALE / elevRangeOf lonLength grid

/-- The vertex heights assigned by buildTerrainFromGrid, in vertex order: for
vertex i of the plane geometry, ix = i mod (widthSegments+1),
iy = i div (widthSegments+1), and the height is
(elevationGrid[iy][ix] - minElev) * zScaleBase in JS arithmetic. -/
def terrainHeights (lat lon : List JVal) (grid : List (List JVal)) : List JVal :=
  let ws := lon.length - 1
  let hs := lat.length - 1
  (List.range ((ws + 1) * (hs + 1))).map (fun i =>
    jmul (jsub ((grid.getD (i / (ws + 1)) []).getD (i % (ws + 1)) JVal.nan)
               (JVal.num (minElevOf lon.length grid)))
         (JVal.num (zScaleBaseOf lon.length grid)))

/-- arrayMinMax of the source: scan a coordinate array, skipping non-finite
entries; NaN results when no finite entry exists. -/
def arrayMinMax (values : List JVal) : JVal × JVal :=
  let st := values.foldl scanStep (none, none)
  (match st.1 with | none => JVal.nan | some q => JVal.num q,
   match st.2 with | none => JVal.nan | some q => JVal.num q)

/-- The terrain mesh state kept by the viewer: the assigned vertex heights and
the planar spans of the plane geometry. -/
structure TerrainMesh where
  heights : List JVal
  lonSpan : JVal
  latSpan : JVal
deriving DecidableEq, Repr

/-- A world-space axis-aligned bounding box (three.js Box3). -/
structure JBox where
  minx : JVal
  miny : JVal
  minz : JVal
  maxx : JVal
  maxy : JVal
  maxz : JVal
deriving DecidableEq, Repr

/-- The base plate mesh: center position and box dimensions
(BoxGeometry(width, depth, thickness) positioned at (cx, cy, cz)). -/
structure BasePlate where
  cx : JVal
  cy : JVal
  cz : JVal
  w : JVal
  d : JVal
  t : JVal
deriving DecidableEq, Repr

/-- The mutable scene state: current terrain mesh and base plate. -/
structure Scene where
  terrain : Option TerrainMesh
  base : Option BasePlate
deriving DecidableEq, Repr

/-- rebuildBase of the source, as a function from the prior baseMesh state to
the new one: with no terrain or a non-finite or non-positive thickness any
existing plate is removed; with a non-finite bounding-box minimum the function
returns leaving the prior plate untouched; otherwise the plate spans the box
footprint (floored at 1e-6) and its center sits at topZ - thickness/2. -/
def rebuildBase (terrainPresent : Bool) (bbox : JBox) (thickness : JVal)
    (prevBase : Option BasePlate) : Option BasePlate :=
  if !terrainPresent || !thickness.isFinite || jleB thickness (JVal.num 0) then
    none
  else if !bbox.minx.isFinite || !bbox.miny.isFinite || !bbox.minz.isFinite then
    prevBase
  else
    let sizex := jsub bbox.maxx bbox.minx
    let sizey := jsub bbox.maxy bbox.miny
    let cx := jhalf (jadd bbox.minx bbox.maxx)
    let cy := jhalf (jadd bbox.miny bbox.maxy)
    let width := jmax sizex (JVal.num (1 / 1000000))
    let depth := jmax sizey (JVal.num (1 / 1000000))
    some { cx := cx, cy := cy, cz := jsub bbox.minz (jhalf thickness),
           w := width, d := depth, t := thickness }

/-- Modelled from the spec: three.js Box3.setFromObject is an external
collaborator; per the spec the re-centered terrain mesh has horizontal center
(0,0) and minimum height 0, so under per-axis scale (sx, sy, sz) its world
bounding box is symmetric horizontally and spans the scaled height range. -/
def terrainGroupBBox (mesh : TerrainMesh) (sx sy sz : JVal) : JBox :=
  let hmax := mesh.heights.foldl jmax JVal.ninf
  { minx := jmul sx (jneg (jhalf mesh.lonSpan)), maxx := jmul sx (jhalf mesh.lonSpan),
    miny := jmul sy (jneg (jhalf mesh.latSpan)), maxy := jmul sy (jhalf mesh.latSpan),
    minz := jmul sz (JVal.num 0), maxz := jmul sz hmax }

/-- The errors thrown by buildTerrainFromGrid. -/
inductive BuildError where
  | latTooShort
  | lonTooShort
  | rowsMismatch
  | colsMismatch
  | segments
deriving DecidableEq, Repr

/-- buildTerrainFromGrid of the source as a state transformer: the structural
validation happens before clearModel(), so a validation error leaves the prior
scene untouched; on success the scene holds the new terrain mesh and the plate
produced by rebuildBase. A thrown error carries the scene state at the throw
site. -/
def buildTerrainFromGrid (prev : Scene) (lat lon : List JVal)
    (grid : List (List JVal)) (sx sy sz thickness : JVal) :
    Except (BuildError × Scene) Scene :=
  if lat.length < 2 then .error (.latTooShort, prev)
  else if lon.length < 2 then .error (.lonTooShort, prev)
  else if grid.length ≠ lat.length then .error (.rowsMismatch, prev)
  else if ∃ row ∈ grid, row.length ≠ lon.length then .error (.colsMismatch, prev)
  else
    let cleared : Scene := { terrain := none, base := none }
    let latStats := arrayMinMax lat
    let lonStats := arrayMinMax lon
    let latSpan := jmax (jabs (jsub latStats.2 latStats.1)) (JVal.num (1 / 1000000))
    let lonSpan := jmax (jabs (jsub lonStats.2 lonStats.1)) (JVal.num (1 / 1000000))
    if lon.length - 1 = 0 ∨ lat.length - 1 = 0 then .error (.segments, cleared)
    else
      let mesh : TerrainMesh :=
        { heights := terrainHeights lat lon grid, lonSpan := lonSpan, latSpan := latSpan }
      let bbox := terrainGroupBBox mesh sx sy sz
      .ok { terrain := some mesh, base := rebuildBase true bbox thickness none }

/-- The fixed priority list of latitude candidate names. -/
def LAT_CANDIDATES : List String :=
  ["lat", "latitude", "y", "nav_lat", "grid_latitude"]

/-- The fixed priority list of longitude candidate names. -/
def LON_CANDIDATES : List String :=
  ["lon", "longitude", "x", "nav_lon", "grid_longitude"]

/-- The fixed list of elevation candidate names. -/
def ELEVATION_CANDIDATES : List String :=
  ["elevation", "height", "depth", "z", "band1", "surface_height", "elev"]

/-- A NetCDF variable: its name, ordered dimension-name list, and flat data
buffer (reader.getDataVariable). -/
structure NCVariable where
  name : String
  dimensions : List String
  data : List JVal
deriving DecidableEq, Repr

/-- A parsed NetCDF container: the dataset-wide dimension table and the
variable list. -/
structure NCFile where
  dimensions : List (String × Nat)
  vars : List NCVariable
deriving DecidableEq, Repr

/-- JS String.prototype.toLowerCase on the ASCII variable and dimension names
the resolver compares (character-wise lower-casing). -/
def strLower (s : String) : String := String.mk (s.data.map Char.toLower)

/-- Whether a variable's lowercased name appears in the lowercased candidate
list. -/
def matchesCandidate (candidates : List String) (v : NCVariable) : Bool :=
  (candidates.map strLower).contains (strLower v.name)

/-- findVariable of the source: the first variable IN DATASET ORDER whose
lowercased name is in the candidate list. -/
def findVariable (vars : List NCVariable) (candidates : List String) :
    Option NCVariable :=
  vars.find? (matchesCandidate candidates)

/-- Modelled from the spec's words, for comparison with `findVariable`: select
the variable matching the earliest candidate in the priority list ("first
match in priority order wins"), regardless of dataset order. -/
def findByPriority (vars : List NCVariable) (candidates : List String) :
    Option NCVariable :=
  candidates.findSome? (fun c =>
    vars.find? (fun v => strLower v.name == strLower c))

/-- findElevationVariable of the source: candidate-name match first, then the
fallback to the first variable whose dimension set contains both resolved
dimension names (case-insensitively). -/
def findElevationVariable (f : NCFile) (latDimName lonDimName : String) :
    Option NCVariable :=
  match findVariable f.vars ELEVATION_CANDIDATES with
  | some v => some v
  | none =>
    f.vars.find? (fun v =>
      (v.dimensions.map strLower).contains (strLower latDimName) &&
      (v.dimensions.map strLower).contains (strLower lonDimName))

/-- The dimension-table lookup `reader.dimensions.find(d => d.name === name)?.size || 0`. -/
def dimSize (f : NCFile) (name : String) : Nat :=
  match f.dimensions.find? (fun d => d.1 == name) with
  | some d => d.2
  | none => 0

/-- The slice size of the leading-dimension strip:
`dimSizes.slice(1).reduce((acc, v) => acc * (v || 1), 1)`. -/
def sliceProd (rest : List (String × Nat)) : Nat :=
  rest.foldl (fun acc d => acc * (if d.2 = 0 then 1 else d.2)) 1

/-- The first while-loop of reshapeElevationGrid: strip leading size-1
dimensions that are neither the latitude nor the longitude dimension, slicing
the flat buffer to the leading sub-range. -/
def stripLead (latDimName lonDimName : String) :
    List JVal → List (String × Nat) → List JVal × List (String × Nat)
  | data, (n, s) :: rest =>
    if 2 < ((n, s) :: rest).length ∧ s = 1 ∧ n ≠ latDimName ∧ n ≠ lonDimName then
      stripLead latDimName lonDimName (data.take (sliceProd rest)) rest
    else (data, (n, s) :: rest)
  | data, [] => (data, [])

/-- The second while-loop of reshapeElevationGrid, on the reversed dimension
list: while more than two dimensions remain and the (originally last) leading
one has size 1, drop it. -/
def stripTrailRev : List (String × Nat) → List (String × Nat)
  | (n, s) :: rest =>
    if 2 < ((n, s) :: rest).length ∧ s = 1 then stripTrailRev rest
    else (n, s) :: rest
  | [] => []

/-- The second while-loop of reshapeElevationGrid: strip trailing size-1
dimensions (the buffer is not sliced). -/
def stripTrail (dims : List (String × Nat)) : List (String × Nat) :=
  (stripTrailRev dims.reverse).reverse

/-- The errors thrown by reshapeElevationGrid. -/
inductive ReshapeError where
  | noDims
  | badDimCount
  | shortData
  | badOrder
deriving DecidableEq, Repr

/-- firstSize of reshapeElevationGrid:
`dimSizes[0] || (firstName === latDimName ? latCount : lonCount)`. -/
def resolvedFirstSize (latDimName : String) (latCount lonCount : Nat)
    (firstName : String) (fs : Nat) : Nat :=
  if fs = 0 then (if firstName = latDimName then latCount else lonCount) else fs

/-- secondSize of reshapeElevationGrid:
`dimSizes[1] || (secondName === lonDimName ? lonCount : latCount)`. -/
def resolvedSecondSize (lonDimName : String) (latCount lonCount : Nat)
    (secondName : String) (ss : Nat) : Nat :=
  if ss = 0 then (if secondName = lonDimName then lonCount else latCount) else ss

/-- The lat-major fill of reshapeElevationGrid: grid[j][i] = data[j*lonCount+i]
(out-of-range reads give undefined, modelled as NaN). -/
def fillLatMajor (latCount lonCount : Nat) (data : List JVal) : List (List JVal) :=
  (List.range latCount).map (fun j =>
    (List.range lonCount).map (fun i => data.getD (j * lonCount + i) JVal.nan))

/-- The lon-major fill of reshapeElevationGrid: grid[j][i] = data[i*latCount+j]. -/
def fillLonMajor (latCount lonCount : Nat) (data : List JVal) : List (List JVal) :=
  (List.range latCount).map (fun j =>
    (List.range lonCount).map (fun i => data.getD (i * latCount + j) JVal.nan))

/-- The part of reshapeElevationGrid after dimension stripping: the two-dims
check, the buffer-length check, and the orientation inference (name match
first, size match as fallback, fatal error on an uninterpretable order). -/
def reshapeCore (latDimName lonDimName : String) (latCount lonCount : Nat)
    (data : List JVal) : List (String × Nat) → Except ReshapeError (List (List JVal))
  | [(firstName, fs), (secondName, ss)] =>
    let firstSize := resolvedFirstSize latDimName latCount lonCount firstName fs
    let secondSize := resolvedSecondSize lonDimName latCount lonCount secondName ss
    if data.length < firstSize * secondSize then .error .shortData
    else if (strLower firstName = strLower latDimName ∨
             (firstSize = latCount ∧ secondSize = lonCount)) ∧ secondSize = lonCount then
      .ok (fillLatMajor latCount lonCount data)
    else if (strLower firstName = strLower lonDimName ∨
             (firstSize = lonCount ∧ secondSize = latCount)) ∧ secondSize = latCount then
      .ok (fillLonMajor latCount lonCount data)
    else .error .badOrder
  | _ => .error .badDimCount

/-- reshapeElevationGrid of the source: pair each declared dimension name with
its table size, check for an empty dimension list, strip degenerate leading
and trailing axes, then interpret the two remaining dimensions. -/
def reshapeElevationGrid (f : NCFile) (elevationVar : NCVariable)
    (latDimName lonDimName : String) (latCount lonCount : Nat) :
    Except ReshapeError (List (List JVal)) :=
  let dims := elevationVar.dimensions.map (fun n => (n, dimSize f n))
  if dims.length = 0 then .error .noDims
  else
    let s := stripLead latDimName lonDimName elevationVar.data dims
    reshapeCore latDimName lonDimName latCount lonCount s.1 (stripTrail s.2)

/-- The errors thrown by parseNetCDF. -/
inductive NCError where
  | missingLatLon
  | coordsTooShort
  | missingElevation
  | reshape (e : ReshapeError)
deriving DecidableEq, Repr

/-- The canonical dataset produced by parseNetCDF. -/
structure Dataset where
  lat : List JVal
  lon : List JVal
  elevation : List (List JVal)
deriving DecidableEq, Repr

/-- The dimension name attached to a coordinate variable:
`(v.dimensions && v.dimensions[0]) || v.name` (an empty first entry is falsy). -/
def coordDimName (v : NCVariable) : String :=
  match v.dimensions.head? with
  | some s => if s = "" then v.name else s
  | none => v.name

/-- `dimensionMap.get(name) || data.length`. -/
def coordCount (f : NCFile) (name : String) (dataLength : Nat) : Nat :=
  match f.dimensions.find? (fun d => d.1 == name) with
  | some d => if d.2 = 0 then dataLength else d.2
  | none => dataLength

/-- parseNetCDF of the source: resolve the latitude and longitude variables,
check coordinate lengths, resolve the elevation variable, reshape it, and
truncate the coordinate arrays to the resolved grid dimensions. -/
def parseNetCDF (f : NCFile) : Except NCError Dataset :=
  match findVariable f.vars LAT_CANDIDATES,
        findVariable f.vars LON_CANDIDATES with
  | some latVar, some lonVar =>
    let latData := latVar.data
    let lonData := lonVar.data
    if latData.length < 2 ∨ lonData.length < 2 then .error .coordsTooShort
    else
      let latDimName := coordDimName latVar
      let lonDimName := coordDimName lonVar
      let latCount := coordCount f latDimName latData.length
      let lonCount := coordCount f lonDimName lonData.length
      match findElevationVariable f latDimName lonDimName with
      | none => .error .missingElevation
      | some elevVar =>
        match reshapeElevationGrid f elevVar latDimName lonDimName latCount lonCount with
        | .error e => .error (.reshape e)
        | .ok grid =>
          .ok { lat := latData.take grid.length,
                lon := lonData.take (grid.getD 0 []).length,
                elevation := grid }
  | _, _ => .error .missingLatLon

/-- loadNcFile of the source: parse, then build; both kinds of failure are
caught and leave the current scene as it was (a build error carries the scene
state at its throw site). -/
def loadNcFile (prev : Scene) (f : NCFile) (sx sy sz thickness : JVal) : Scene :=
  match parseNetCDF f with
  | .error _ => prev
  | .ok ds =>
    match buildTerrainFromGrid prev ds.lat ds.lon ds.elevation sx sy sz thickness with
    | .error e => e.2
    | .ok scene => scene

/-- A 3D point with exact coordinates (export-path geometry). -/
structure Vec3 where
  x : ℚ
  y : ℚ
  z : ℚ
deriving DecidableEq, Repr

/-- A triangle of a mesh geometry. -/
structure Tri where
  a : Vec3
  b : Vec3
  c : Vec3
deriving DecidableEq, Repr

/-- A world matrix restricted to the transforms the viewer uses (per-axis
scale plus translation). -/
structure Affine where
  scale : Vec3
  translate : Vec3
deriving DecidableEq, Repr

/-- Apply a world matrix to a point. -/
def applyAffine (m : Affine) (v : Vec3) : Vec3 :=
  { x := m.scale.x * v.x + m.translate.x,
    y := m.scale.y * v.y + m.translate.y,
    z := m.scale.z * v.z + m.translate.z }

/-- geometry.clone().applyMatrix4(obj.matrixWorld) on one triangle. -/
def applyMatrix4 (m : Affine) (t : Tri) : Tri :=
  { a := applyAffine m t.a, b := applyAffine m t.b, c := applyAffine m t.c }

/-- A mesh as the export path sees it: its geometry's triangle list and its
world matrix. -/
structure XMesh where
  triangles : List Tri
  matrixWorld : Affine
deriving DecidableEq, Repr

/-- The failures of downloadSTL (each shown to the user as an alert, with no
output produced). -/
inductive ExportError where
  | notLoaded
  | noGeometry
deriving DecidableEq, Repr

/-- Modelled from the spec: BufferGeometryUtils.mergeBufferGeometries is an
external three.js utility; per the spec merging concatenates the transformed
parts' triangle buffers into one triangle soup. -/
def mergeBufferGeometries (parts : List (List Tri)) : List Tri :=
  parts.flatten

/-- downloadSTL of the source: abort with an alert when terrain or base is
missing or when no geometry was collected; otherwise clone each part, apply
its world matrix, merge, and serialize (the merged triangle list stands for
the exported byte stream; the ASCII rendering by STLExporter is external). -/
def downloadSTL (terrain base : Option XMesh) : Except ExportError (List Tri) :=
  match terrain, base with
  | some t, some b =>
    let geometries : List (List Tri) :=
      [t.triangles.map (applyMatrix4 t.matrixWorld),
       b.triangles.map (applyMatrix4 b.matrixWorld)]
    if geometries.length = 0 then .error .noGeometry
    else .ok (mergeBufferGeometries geometries)
  | _, _ => .error .notLoaded

/-- Whether an Except value is a success. -/
def isOkE {ε α : Type} : Except ε α → Bool
  | .ok _ => true
  | .error _ => false

/-- The finite values of a JS array, in order (the values the min/max scan
does not skip). -/
def finVals : List JVal → List ℚ
  | [] => []
  | .num q :: rest => q :: finVals rest
  | _ :: rest => finVals rest

/-- The minimum-tracking half of `scanStep`, on the skipped-value-free list. -/
def ominStep (o : Option ℚ) (q : ℚ) : Option ℚ :=
  some (match o with
        | none => q
        | some m => if q < m then q else m)

/-- The maximum-tracking half of `scanStep`, on the skipped-value-free list. -/
def omaxStep (o : Option ℚ) (q : ℚ) : Option ℚ :=
  some (match o with
        | none => q
        | some m => if m < q then q else m)

/-- A dataset variable named y (a latitude candidate). -/
def varY : NCVariable := { name := "y", dimensions := [], data := [] }

/-- A dataset variable named lat (the highest-priority latitude candidate). -/
def varLat : NCVariable := { name := "lat", dimensions := [], data := [] }

/-- A dataset variable named temp (matching no coordinate candidate). -/
def varTemp : NCVariable := { name := "temp", dimensions := [], data := [] }

/-- A NetCDF container with no dimensions and no variables. -/
def emptyNCFile : NCFile := { dimensions := [], vars := [] }

/-- A scene holding a previously loaded terrain, used to exhibit rollback. -/
def sampleScene : Scene :=
  { terrain := some { heights := [JVal.num 0], lonSpan := JVal.num 1, latSpan := JVal.num 1 },
    base := some { cx := JVal.num 0, cy := JVal.num 0, cz := JVal.num 0,
                   w := JVal.num 1, d := JVal.num 1, t := JVal.num 5 } }

/-- The identity world matrix. -/
def idAffine : Affine := { scale := { x := 1, y := 1, z := 1 }, translate := { x := 0, y := 0, z := 0 } }

/-- A single concrete triangle. -/
def triUnit : Tri :=
  { a := { x := 0, y := 0, z := 0 }, b := { x := 1, y := 0, z := 0 }, c := { x := 0, y := 1, z := 0 } }

/-- A mesh whose geometry has an empty vertex buffer. -/
def emptyXMesh : XMesh := { triangles := [], matrixWorld := idAffine }

/-- A mesh with one triangle. -/
def triXMesh : XMesh := { triangles := [triUnit], matrixWorld := idAffine }

theorem foldl_range_getD {α β : Type} (f : β → α → β) (d : α) :
    ∀ (l : List α) (st : β),
      (List.range l.length).foldl (fun s c => f s (l.getD c d)) st = l.foldl f st := by
  intro l
  induction l with
  | nil => intro st; rfl
  | cons x xs ih =>
    intro st
    rw [List.length_cons, List.range_succ_eq_map]
    simp only [List.foldl_cons, List.foldl_map, List.getD_cons_zero, List.getD_cons_succ]
    exact ih (f st x)

theorem foldl_ext_mem {α β : Type} (f g : β → α → β) :
    ∀ (l : List α), (∀ a ∈ l, ∀ b, f b a = g b a) → ∀ b, l.foldl f b = l.foldl g b := by
  intro l
  induction l with
  | nil => intro _ b; rfl
  | cons x xs ih =>
    intro h b
    simp only [List.foldl_cons]
    rw [h x (List.mem_cons_self x xs)]
    exact ih (fun a ha b2 => h a (List.mem_cons_of_mem x ha) b2) _

theorem scanMinMax_eq_flatten (lonLength : Nat) (grid : List (List JVal))
    (hrect : ∀ row ∈ grid, row.length = lonLength) :
    scanMinMax lonLength grid = grid.flatten.foldl scanStep (none, none) := by
  rw [List.foldl_flatten]
  unfold scanMinMax
  refine foldl_ext_mem _ _ grid (fun row hrow st => ?_) _
  rw [← hrect row hrow]
  exact foldl_range_getD scanStep JVal.nan row st

theorem foldl_scanStep_split :
    ∀ (l : List JVal) (st : Option ℚ × Option ℚ),
      l.foldl scanStep st = ((finVals l).foldl ominStep st.1, (finVals l).foldl omaxStep st.2) := by
  intro l
  induction l with
  | nil => intro st; simp [finVals]
  | cons v rest ih =>
    intro st
    cases v with
    | num q =>
      rw [List.foldl_cons, ih]
      rfl
    | nan => rw [List.foldl_cons]; exact ih st
    | inf => rw [List.foldl_cons]; exact ih st
    | ninf => rw [List.foldl_cons]; exact ih st

theorem ominStep_some (m q : ℚ) : ominStep (some m) q = some (min m q) := by
  unfold ominStep
  rcases lt_or_le q m with h | h
  · simp [h, min_eq_right h.le]
  · simp [not_lt.mpr h, min_eq_left h]

theorem omaxStep_some (m q : ℚ) : omaxStep (some m) q = some (max m q) := by
  unfold omaxStep
  rcases lt_or_le m q with h | h
  · simp [h, max_eq_right h.le]
  · simp [not_lt.mpr h, max_eq_left h]

theorem foldl_ominStep_some (qs : List ℚ) :
    ∀ m : ℚ, qs.foldl ominStep (some m) = some (qs.foldl min m) := by
  induction qs with
  | nil => intro m; rfl
  | cons q rest ih =>
    intro m
    rw [List.foldl_cons, List.foldl_cons, ominStep_some, ih]

theorem foldl_omaxStep_some (qs : List ℚ) :
    ∀ m : ℚ, qs.foldl omaxStep (some m) = some (qs.foldl max m) := by
  induction qs with
  | nil => intro m; rfl
  | cons q rest ih =>
    intro m
    rw [List.foldl_cons, List.foldl_cons, omaxStep_some, ih]

theorem foldl_min_le_init (qs : List ℚ) : ∀ m : ℚ, qs.foldl min m ≤ m := by
  induction qs with
  | nil => intro m; exact le_refl m
  | cons q rest ih =>
    intro m
    exact le_trans (ih (min m q)) (min_le_left m q)

theorem foldl_min_le_mem (qs : List ℚ) : ∀ m q0, q0 ∈ qs → qs.foldl min m ≤ q0 := by
  induction qs with
  | nil => intro _ _ h; cases h
  | cons q rest ih =>
    intro m q0 h
    rcases List.mem_cons.mp h with rfl | h2
    · exact le_trans (foldl_min_le_init rest (min m q0)) (min_le_right m q0)
    · exact ih (min m q) q0 h2

theorem foldl_min_mem (qs : List ℚ) : ∀ m, qs.foldl min m = m ∨ qs.foldl min m ∈ qs := by
  induction qs with
  | nil => intro m; exact Or.inl rfl
  | cons q rest ih =>
    intro m
    rw [List.foldl_cons]
    rcases ih (min m q) with h | h
    · rcases min_choice m q with hm | hm
      · left; rw [h, hm]
      · right; rw [h, hm]; exact List.mem_cons_self q rest
    · right; exact List.mem_cons_of_mem q h

theorem foldl_max_ge_init (qs : List ℚ) : ∀ m : ℚ, m ≤ qs.foldl max m := by
  induction qs with
  | nil => intro m; exact le_refl m
  | cons q rest ih =>
    intro m
    exact le_trans (le_max_left m q) (ih (max m q))

theorem foldl_max_ge_mem (qs : List ℚ) : ∀ m q0, q0 ∈ qs → q0 ≤ qs.foldl max m := by
  induction qs with
  | nil => intro _ _ h; cases h
  | cons q rest ih =>
    intro m q0 h
    rcases List.mem_cons.mp h with rfl | h2
    · exact le_trans (le_max_right m q0) (foldl_max_ge_init rest (max m q0))
    · exact ih (max m q) q0 h2

theorem foldl_max_mem (qs : List ℚ) : ∀ m, qs.foldl max m = m ∨ qs.foldl max m ∈ qs := by
  induction qs with
  | nil => intro m; exact Or.inl rfl
  | cons q rest ih =>
    intro m
    rw [List.foldl_cons]
    rcases ih (max m q) with h | h
    · rcases max_choice m q with hm | hm
      · left; rw [h, hm]
      · right; rw [h, hm]; exact List.mem_cons_self q rest
    · right; exact List.mem_cons_of_mem q h

theorem mem_finVals : ∀ (l : List JVal) (q : ℚ), q ∈ finVals l ↔ JVal.num q ∈ l := by
  intro l
  induction l with
  | nil => intro q; simp [finVals]
  | cons v rest ih =>
    intro q
    cases v with
    | num p => simp [finVals, ih]
    | nan => simp [finVals, ih]
    | inf => simp [finVals, ih]
    | ninf => simp [finVals, ih]

theorem scanMinMax_fst_spec (lonLength : Nat) (grid : List (List JVal))
    (hrect : ∀ row ∈ grid, row.length = lonLength)
    (hne : finVals grid.flatten ≠ []) :
    JVal.num (minElevOf lonLength grid) ∈ grid.flatten ∧
      ∀ q ∈ finVals grid.flatten, minElevOf lonLength grid ≤ q := by
  rcases hv : finVals grid.flatten with _ | ⟨q0, rest⟩
  · exact absurd hv hne
  · have hsplit := foldl_scanStep_split grid.flatten (none, none)
    have h1 : (scanMinMax lonLength grid).1 = some (rest.foldl min q0) := by
      rw [scanMinMax_eq_flatten lonLength grid hrect, hsplit, hv]
      simp only [List.foldl_cons]
      exact foldl_ominStep_some rest q0
    have hmin : minElevOf lonLength grid = rest.foldl min q0 := by
      unfold minElevOf
      rw [h1]
      rfl
    constructor
    · rw [← mem_finVals, hv, hmin]
      rcases foldl_min_mem rest q0 with h | h
      · rw [h]; exact List.mem_cons_self q0 rest
      · exact List.mem_cons_of_mem q0 h
    · intro q hq
      rw [hmin]
      rcases List.mem_cons.mp hq with rfl | h2
      · exact foldl_min_le_init rest q
      · exact foldl_min_le_mem rest q0 q h2

theorem scanMinMax_snd_spec (lonLength : Nat) (grid : List (List JVal))
    (hrect : ∀ row ∈ grid, row.length = lonLength)
    (hne : finVals grid.flatten ≠ []) :
    JVal.num (maxElevOf lonLength grid) ∈ grid.flatten ∧
      ∀ q ∈ finVals grid.flatten, q ≤ maxElevOf lonLength grid := by
  rcases hv : finVals grid.flatten with _ | ⟨q0, rest⟩
  · exact absurd hv hne
  · have hsplit := foldl_scanStep_split grid.flatten (none, none)
    have h1 : (scanMinMax lonLength grid).2 = some (rest.foldl max q0) := by
      rw [scanMinMax_eq_flatten lonLength grid hrect, hsplit, hv]
      simp only [List.foldl_cons]
      exact foldl_omaxStep_some rest q0
    have hmax : maxElevOf lonLength grid = rest.foldl max q0 := by
      unfold maxElevOf
      rw [h1]
      rfl
    constructor
    · rw [← mem_finVals, hv, hmax]
      rcases foldl_max_mem rest q0 with h | h
      · rw [h]; exact List.mem_cons_self q0 rest
      · exact List.mem_cons_of_mem q0 h
    · intro q hq
      rw [hmax]
      rcases List.mem_cons.mp hq with rfl | h2
      · exact foldl_max_ge_init rest q
      · exact foldl_max_ge_mem rest q0 q h2

theorem getD_map_range {α : Type} (f : Nat → α) (N i : Nat) (d : α) (hi : i < N) :
    ((List.range N).map f).getD i d = f i := by
  rw [List.getD_eq_getElem?_getD, List.getElem?_map, List.getElem?_range hi]
  rfl

theorem index_div (L r c : Nat) (hc : c < L) : (c + r * L) / L = r := by
  have hL : 0 < L := lt_of_le_of_lt (Nat.zero_le c) hc
  rw [Nat.add_mul_div_right c r hL, Nat.div_eq_of_lt hc, Nat.zero_add]

theorem index_mod (L r c : Nat) (hc : c < L) : (c + r * L) % L = c := by
  rw [Nat.add_mul_mod_self_right, Nat.mod_eq_of_lt hc]

theorem index_lt (L r c latLen : Nat) (hc : c < L) (hr : r < latLen) :
    c + r * L < L * latLen := by
  have h1 : c + r * L < (r + 1) * L := by
    have : (r + 1) * L = r * L + L := by ring
    omega
  have h2 : (r + 1) * L ≤ latLen * L := Nat.mul_le_mul_right L hr
  have h3 : latLen * L = L * latLen := Nat.mul_comm _ _
  omega

theorem terrainHeights_eq (lat lon : List JVal) (grid : List (List JVal))
    (hlat : 1 ≤ lat.length) (hlon : 1 ≤ lon.length) :
    terrainHeights lat lon grid =
      (List.range (lon.length * lat.length)).map (fun i =>
        jmul (jsub ((grid.getD (i / lon.length) []).getD (i % lon.length) JVal.nan)
                   (JVal.num (minElevOf lon.length grid)))
             (JVal.num (zScaleBaseOf lon.length grid))) := by
  unfold terrainHeights
  simp only [Nat.sub_add_cancel hlon, Nat.sub_add_cancel hlat]

theorem entry_mem_flatten (grid : List (List JVal)) (r c : Nat)
    (hr : r < grid.length) (hc : c < (grid.getD r []).length) :
    (grid.getD r []).getD c JVal.nan ∈ grid.flatten := by
  rw [List.getD_eq_getElem (grid.getD r []) JVal.nan hc]
  refine List.mem_flatten.mpr ⟨grid.getD r [], ?_, List.getElem_mem hc⟩
  rw [List.getD_eq_getElem grid [] hr]
  exact List.getElem_mem hr

theorem flatten_mem_entry (grid : List (List JVal)) (v : JVal) (h : v ∈ grid.flatten) :
    ∃ r, ∃ hr : r < grid.length, ∃ c, ∃ hc : c < (grid.getD r []).length,
      (grid.getD r []).getD c JVal.nan = v := by
  rcases List.mem_flatten.mp h with ⟨row, hrow, hv⟩
  rcases List.getElem_of_mem hrow with ⟨r, hr, hrEq⟩
  rcases List.getElem_of_mem hv with ⟨c, hc, hcEq⟩
  have hgetD : grid.getD r [] = row := by
    rw [List.getD_eq_getElem grid [] hr, hrEq]
  refine ⟨r, hr, c, ?_, ?_⟩
  · rw [hgetD]; exact hc
  · rw [hgetD, List.getD_eq_getElem row JVal.nan hc, hcEq]

theorem getD_take {α : Type} (l : List α) (n i : Nat) (d : α) (h : i < n) :
    (l.take n).getD i d = l.getD i d := by
  rw [List.getD_eq_getElem?_getD, List.getD_eq_getElem?_getD, List.getElem?_take, if_pos h]

theorem fillLatMajor_take (latCount lonCount T : Nat) (data : List JVal)
    (hT : latCount * lonCount ≤ T) :
    fillLatMajor latCount lonCount (data.take T) = fillLatMajor latCount lonCount data := by
  unfold fillLatMajor
  refine List.map_congr_left (fun j hj => ?_)
  refine List.map_congr_left (fun i hi => ?_)
  have hj2 := List.mem_range.mp hj
  have hi2 := List.mem_range.mp hi
  refine getD_take _ _ _ _ ?_
  have h1 : j * lonCount + i < (j + 1) * lonCount := by
    have : (j + 1) * lonCount = j * lonCount + lonCount := by ring
    omega
  have h2 : (j + 1) * lonCount ≤ latCount * lonCount := Nat.mul_le_mul_right lonCount hj2
  omega

theorem fillLonMajor_take (latCount lonCount T : Nat) (data : List JVal)
    (hT : latCount * lonCount ≤ T) :
    fillLonMajor latCount lonCount (data.take T) = fillLonMajor latCount lonCount data := by
  unfold fillLonMajor
  refine List.map_congr_left (fun j hj => ?_)
  refine List.map_congr_left (fun i hi => ?_)
  have hj2 := List.mem_range.mp hj
  have hi2 := List.mem_range.mp hi
  refine getD_take _ _ _ _ ?_
  have h1 : i * latCount + j < (i + 1) * latCount := by
    have : (i + 1) * latCount = i * latCount + latCount := by ring
    omega
  have h2 : (i + 1) * latCount ≤ lonCount * latCount := Nat.mul_le_mul_right latCount hi2
  have h3 : lonCount * latCount = latCount * lonCount := Nat.mul_comm _ _
  omega

theorem reshapeCore_take (latD lonD n1 n2 : String) (s1 s2 latCount lonCount : Nat)
    (data : List JVal) (hs1 : s1 ≠ 0) (hs2 : s2 ≠ 0)
    (hgrid : latCount * lonCount ≤ s1 * s2) (hlen : s1 * s2 ≤ data.length) :
    reshapeCore latD lonD latCount lonCount (data.take (s1 * s2)) [(n1, s1), (n2, s2)]
      = reshapeCore latD lonD latCount lonCount data [(n1, s1), (n2, s2)] := by
  unfold reshapeCore resolvedFirstSize resolvedSecondSize
  simp only [if_neg hs1, if_neg hs2]
  have hlen1 : ¬ (data.take (s1 * s2)).length < s1 * s2 := by
    rw [List.length_take]
    omega
  have hlen2 : ¬ data.length < s1 * s2 := by omega
  rw [if_neg hlen1, if_neg hlen2]
  by_cases hb1 : (strLower n1 = strLower latD ∨ (s1 = latCount ∧ s2 = lonCount)) ∧ s2 = lonCount
  · rw [if_pos hb1, if_pos hb1, fillLatMajor_take latCount lonCount (s1 * s2) data hgrid]
  · rw [if_neg hb1, if_neg hb1]
    by_cases hb2 : (strLower n1 = strLower lonD ∨ (s1 = lonCount ∧ s2 = latCount)) ∧ s2 = latCount
    · rw [if_pos hb2, if_pos hb2, fillLonMajor_take latCount lonCount (s1 * s2) data hgrid]
    · rw [if_neg hb2, if_neg hb2]

/-- C5: for every thickness strictly greater than 0 and every (finite) terrain
bounding box — the box already reflects the current terrain transform,
including non-uniform per-axis scales — rebuildBase builds the plate with a box
of depth thickness whose center is placed at topZ - thickness/2 along the
height axis and on the bounding box's horizontal center, so the plate's top
face (center height plus half the depth) is exactly the bounding-box minimum
along the height axis. -/
theorem C5_base_plate_flush (x1 y1 z1 x2 y2 z2 th : ℚ) (prev : Option BasePlate)
    (ht : 0 < th) :
    rebuildBase true
        ⟨JVal.num x1, JVal.num y1, JVal.num z1, JVal.num x2, JVal.num y2, JVal.num z2⟩
        (JVal.num th) prev
      = some { cx := JVal.num ((x1 + x2) / 2), cy := JVal.num ((y1 + y2) / 2),
               cz := JVal.num (z1 - th / 2),
               w := jmax (JVal.num (x2 - x1)) (JVal.num (1 / 1000000)),
               d := jmax (JVal.num (y2 - y1)) (JVal.num (1 / 1000000)),
               t := JVal.num th }
    ∧ jadd (JVal.num (z1 - th / 2)) (jhalf (JVal.num th)) = JVal.num z1 := by
  constructor
  · unfold rebuildBase
    rw [if_neg (by simp [JVal.isFinite, jleB, not_le.mpr ht]), if_neg (by simp [JVal.isFinite])]
    have h1 : jsub (JVal.num x2) (JVal.num x1) = JVal.num (x2 - x1) := by
      simp only [jsub, jadd, jneg, JVal.num.injEq]
      ring
    have h2 : jsub (JVal.num y2) (JVal.num y1) = JVal.num (y2 - y1) := by
      simp only [jsub, jadd, jneg, JVal.num.injEq]
      ring
    have h3 : jsub (JVal.num z1) (jhalf (JVal.num th)) = JVal.num (z1 - th / 2) := by
      simp only [jsub, jadd, jneg, jhalf, JVal.num.injEq]
      ring
    simp only [h1, h2, h3]
    rfl
  · simp only [jadd, jhalf, JVal.num.injEq]
    ring

/-- C5 witness at a concrete box and thickness. -/
theorem C5_base_plate_flush_witness :
    rebuildBase true
        ⟨JVal.num 0, JVal.num 0, JVal.num 0, JVal.num 2, JVal.num 2, JVal.num 1⟩
        (JVal.num 1) none
      = some { cx := JVal.num ((0 + 2) / 2), cy := JVal.num ((0 + 2) / 2),
               cz := JVal.num (0 - 1 / 2),
               w := jmax (JVal.num (2 - 0)) (JVal.num (1 / 1000000)),
               d := jmax (JVal.num (2 - 0)) (JVal.num (1 / 1000000)),
               t := JVal.num 1 } :=
  (C5_base_plate_flush 0 0 0 2 2 1 1 none (by norm_num)).1

/-- C9: when rebuildBase is called with terrain present and a positive finite
thickness while the bounding-box minimum is non-finite in some axis, it
returns without touching the previously built plate (stale); whereas any
non-finite or non-positive thickness removes an existing plate. -/
theorem C9_stale_base (bbox : JBox) (th : JVal) (prev : Option BasePlate)
    (hfin : th.isFinite = true) (hpos : jleB th (JVal.num 0) = false)
    (hnf : bbox.minx.isFinite = false ∨ bbox.miny.isFinite = false ∨
           bbox.minz.isFinite = false) :
    rebuildBase true bbox th prev = prev
    ∧ ∀ u : JVal, (u.isFinite = false ∨ jleB u (JVal.num 0) = true) →
        rebuildBase true bbox u prev = none := by
  constructor
  · unfold rebuildBase
    rw [if_neg (by simp [hfin, hpos]), if_pos (by rcases hnf with h | h | h <;> simp [h])]
  · intro u hu
    unfold rebuildBase
    rw [if_pos (by rcases hu with h | h <;> simp [h])]

/-- C9 witness: a NaN bounding-box minimum with thickness 1 keeps the stale
plate; thickness 0 removes it. -/
theorem C9_stale_base_witness :
    rebuildBase true
        ⟨JVal.nan, JVal.num 0, JVal.num 0, JVal.num 2, JVal.num 2, JVal.num 1⟩
        (JVal.num 1) (some { cx := JVal.num 0, cy := JVal.num 0, cz := JVal.num 0,
                             w := JVal.num 1, d := JVal.num 1, t := JVal.num 1 })
      = some { cx := JVal.num 0, cy := JVal.num 0, cz := JVal.num 0,
               w := JVal.num 1, d := JVal.num 1, t := JVal.num 1 }
    ∧ rebuildBase true
        ⟨JVal.nan, JVal.num 0, JVal.num 0, JVal.num 2, JVal.num 2, JVal.num 1⟩
        (JVal.num 0) (some { cx := JVal.num 0, cy := JVal.num 0, cz := JVal.num 0,
                             w := JVal.num 1, d := JVal.num 1, t := JVal.num 1 })
      = none :=
  ⟨(C9_stale_base _ _ _ (by decide) (by decide) (Or.inl (by decide))).1,
   (C9_stale_base _ (JVal.num 1) _ (by decide) (by decide) (Or.inl (by decide))).2
     (JVal.num 0) (Or.inr (by decide))⟩

/-- C7 counterexample: with a loaded terrain mesh whose geometry has an empty
vertex buffer (and a non-empty base), downloadSTL raises no error and produces
an output, contradicting the claim that a mesh lacking a non-empty buffer
makes the export fail with no output. -/
theorem C7_counterexample :
    downloadSTL (some emptyXMesh) (some triXMesh)
      = .ok [applyMatrix4 idAffine triUnit]
    ∧ ∀ e, downloadSTL (some emptyXMesh) (some triXMesh) ≠ .error e := by
  constructor
  · rfl
  · intro e h
    rw [show downloadSTL (some emptyXMesh) (some triXMesh)
          = .ok [applyMatrix4 idAffine triUnit] from rfl] at h
    exact Except.noConfusion h

/-- C7 (amended): downloadSTL fails with an explicit error and produces no
output exactly when no terrain or base mesh is loaded (the collected geometry
list is then never empty when both exist); an individual mesh with an empty
vertex buffer causes no error — its zero triangles are merged and an output
stream is still produced. -/
theorem C7_empty_export (t b : Option XMesh) :
    isOkE (downloadSTL t b) = (t.isSome && b.isSome)
    ∧ ((t = none ∨ b = none) → downloadSTL t b = .error .notLoaded) := by
  constructor
  · cases t with
    | none => cases b <;> rfl
    | some mt =>
      cases b with
      | none => rfl
      | some mb => rfl
  · intro h
    rcases h with rfl | rfl
    · cases b <;> rfl
    · cases t <;> rfl

/-- C7 amended witness: with no terrain loaded the export fails and produces
no output. -/
theorem C7_empty_export_witness :
    downloadSTL none (some triXMesh) = .error .notLoaded :=
  (C7_empty_export none (some triXMesh)).2 (Or.inl rfl)

/-- C2 counterexample: in a dataset whose variables are named y then lat (in
that order), findVariable selects y (dataset order), while the claimed
priority-order selection would pick lat; so the selection is not the first
match in the candidate priority list and does depend on dataset order. -/
theorem C2_counterexample :
    findVariable [varY, varLat] LAT_CANDIDATES = some varY
    ∧ findByPriority [varY, varLat] LAT_CANDIDATES = some varLat
    ∧ varY ≠ varLat := by
  refine ⟨by decide, by decide, by decide⟩

/-- C2 (amended): findVariable returns the first variable in dataset order
whose name case-insensitively matches any candidate name (so a match wins
whenever every earlier dataset variable fails to match, regardless of which
candidate it matches); and if no variable matches the latitude or the
longitude list, parseNetCDF fails with the fatal missing-variable error. -/
theorem C2_dataset_order (candidates : List String) (pre post : List NCVariable)
    (v : NCVariable) (f : NCFile)
    (h1 : ∀ w ∈ pre, matchesCandidate candidates w = false)
    (h2 : matchesCandidate candidates v = true) :
    findVariable (pre ++ v :: post) candidates = some v
    ∧ (findVariable f.vars LAT_CANDIDATES = none →
        parseNetCDF f = .error .missingLatLon)
    ∧ (findVariable f.vars LON_CANDIDATES = none →
        parseNetCDF f = .error .missingLatLon) := by
  refine ⟨?_, ?_, ?_⟩
  · unfold findVariable
    rw [List.find?_append]
    have hpre : pre.find? (matchesCandidate candidates) = none :=
      List.find?_eq_none.mpr (fun x hx => by rw [h1 x hx]; simp)
    rw [hpre, List.find?_cons_of_pos post h2]
    rfl
  · intro h
    unfold parseNetCDF
    rw [h]
  · intro h
    unfold parseNetCDF
    rw [h]
    cases findVariable f.vars LAT_CANDIDATES <;> rfl

/-- C2 amended witness: a non-matching variable followed by lat resolves to
lat. -/
theorem C2_dataset_order_witness :
    findVariable [varTemp, varLat] LAT_CANDIDATES = some varLat :=
  (C2_dataset_order LAT_CANDIDATES [varTemp] [] varLat emptyNCFile
    (by decide) (by decide)).1

/-- C10: reshapeElevationGrid's buffer-length error (after stripping, at the
two-dimension stage embodied by reshapeCore) is raised exactly when the flat
buffer is strictly shorter than the product of the two remaining dimension
sizes; a strictly longer buffer is accepted and the surplus trailing values
are ignored — the result equals the result on the buffer truncated to that
product. -/
theorem C10_buffer_length (latD lonD n1 n2 : String) (s1 s2 latCount lonCount : Nat)
    (data : List JVal) (hs1 : s1 ≠ 0) (hs2 : s2 ≠ 0)
    (hgrid : latCount * lonCount ≤ s1 * s2) :
    (reshapeCore latD lonD latCount lonCount data [(n1, s1), (n2, s2)]
        = .error .shortData ↔ data.length < s1 * s2)
    ∧ (s1 * s2 ≤ data.length →
        reshapeCore latD lonD latCount lonCount data [(n1, s1), (n2, s2)]
          = reshapeCore latD lonD latCount lonCount (data.take (s1 * s2))
              [(n1, s1), (n2, s2)]) := by
  constructor
  · constructor
    · intro h
      by_contra hlen
      push_neg at hlen
      revert h
      unfold reshapeCore
      simp only [resolvedFirstSize, resolvedSecondSize, if_neg hs1, if_neg hs2]
      rw [if_neg (not_lt.mpr hlen)]
      split
      · simp
      · split
        · simp
        · simp
    · intro h
      unfold reshapeCore
      simp only [resolvedFirstSize, resolvedSecondSize, if_neg hs1, if_neg hs2]
      rw [if_pos h]
  · intro hlen
    exact (reshapeCore_take latD lonD n1 n2 s1 s2 latCount lonCount data hs1 hs2
      hgrid hlen).symm

/-- C10 witness: with a 2 by 2 shape and a 5-entry buffer, the surplus entry
is ignored. -/
theorem C10_buffer_length_witness :
    reshapeCore "lat" "lon" 2 2
        [JVal.num 1, JVal.num 2, JVal.num 3, JVal.num 4, JVal.num 5]
        [("lat", 2), ("lon", 2)]
      = reshapeCore "lat" "lon" 2 2
          ([JVal.num 1, JVal.num 2, JVal.num 3, JVal.num 4, JVal.num 5].take (2 * 2))
          [("lat", 2), ("lon", 2)] :=
  (C10_buffer_length "lat" "lon" "lat" "lon" 2 2 2 2
    [JVal.num 1, JVal.num 2, JVal.num 3, JVal.num 4, JVal.num 5]
    (by decide) (by decide) (by decide)).2 (by decide)

/-- C3 counterexample: an elevation variable with dimensions a, b (matching
neither lat0 nor lon0) of equal sizes 2 and 2, with latCount = lonCount = 2,
is reshaped without any error — the size-match fallback fires for both
orientations and the code silently picks the lat-major one — contradicting
the claim that every equal-size no-name-match case is a fatal error. -/
theorem C3_counterexample :
    reshapeElevationGrid { dimensions := [("a", 2), ("b", 2)], vars := [] }
        { name := "elev", dimensions := ["a", "b"],
          data := [JVal.num 1, JVal.num 2, JVal.num 3, JVal.num 4] }
        "lat0" "lon0" 2 2
      = .ok [[JVal.num 1, JVal.num 2], [JVal.num 3, JVal.num 4]]
    ∧ ∀ e, reshapeElevationGrid { dimensions := [("a", 2), ("b", 2)], vars := [] }
        { name := "elev", dimensions := ["a", "b"],
          data := [JVal.num 1, JVal.num 2, JVal.num 3, JVal.num 4] }
        "lat0" "lon0" 2 2 ≠ .error e := by
  constructor
  · rfl
  · intro e hcontra
    rw [show reshapeElevationGrid { dimensions := [("a", 2), ("b", 2)], vars := [] }
          { name := "elev", dimensions := ["a", "b"],
            data := [JVal.num 1, JVal.num 2, JVal.num 3, JVal.num 4] }
          "lat0" "lon0" 2 2
        = .ok [[JVal.num 1, JVal.num 2], [JVal.num 3, JVal.num 4]] from rfl] at hcontra
    exact Except.noConfusion hcontra

/-- C3 (amended): when the two remaining dimensions match neither the latitude
nor the longitude dimension name (case-insensitively) and have equal sizes,
reshaping fails with the fatal cannot-interpret-dimension-order error —
except when that common size equals both the latitude count and the longitude
count, in which case the size-match fallback silently treats the first
dimension as latitude. -/
theorem C3_tie_error (f : NCFile) (vname n1 n2 latD lonD : String)
    (data : List JVal) (s latCount lonCount : Nat)
    (h1 : dimSize f n1 = s) (h2 : dimSize f n2 = s) (hs : s ≠ 0)
    (hn1lat : strLower n1 ≠ strLower latD) (hn1lon : strLower n1 ≠ strLower lonD)
    (hn2lat : strLower n2 ≠ strLower latD) (hn2lon : strLower n2 ≠ strLower lonD)
    (hdata : s * s ≤ data.length)
    (htie : ¬(latCount = s ∧ lonCount = s)) :
    reshapeElevationGrid f { name := vname, dimensions := [n1, n2], data := data }
        latD lonD latCount lonCount = .error .badOrder := by
  unfold reshapeElevationGrid
  simp only [List.map_cons, List.map_nil, h1, h2]
  rw [if_neg (by simp)]
  show reshapeCore latD lonD latCount lonCount data [(n1, s), (n2, s)] = .error .badOrder
  have hb1 : ¬((strLower n1 = strLower latD ∨ (s = latCount ∧ s = lonCount)) ∧
      s = lonCount) := by
    rintro ⟨hin | ⟨ha2, hb2⟩, hc⟩
    · exact hn1lat hin
    · exact htie ⟨ha2.symm, hb2.symm⟩
  have hb2 : ¬((strLower n1 = strLower lonD ∨ (s = lonCount ∧ s = latCount)) ∧
      s = latCount) := by
    rintro ⟨hin | ⟨ha2, hb2⟩, hc⟩
    · exact hn1lon hin
    · exact htie ⟨hb2.symm, ha2.symm⟩
  unfold reshapeCore
  simp only [resolvedFirstSize, resolvedSecondSize, if_neg hs]
  rw [if_neg (not_lt.mpr hdata), if_neg hb1, if_neg hb2]

/-- C3 amended witness: sizes 2 and 2 under names a, b with latCount 3 and
lonCount 2 raise the fatal order error. -/
theorem C3_tie_error_witness :
    reshapeElevationGrid { dimensions := [("a", 2), ("b", 2)], vars := [] }
        { name := "elev", dimensions := ["a", "b"],
          data := [JVal.num 1, JVal.num 2, JVal.num 3, JVal.num 4] }
        "lat0" "lon0" 3 2 = .error .badOrder :=
  C3_tie_error { dimensions := [("a", 2), ("b", 2)], vars := [] } "elev" "a" "b"
    "lat0" "lon0" [JVal.num 1, JVal.num 2, JVal.num 3, JVal.num 4] 2 3 2
    (by decide) (by decide) (by decide) (by decide) (by decide) (by decide)
    (by decide) (by decide) (by decide)

/-- C4: an elevation variable with an extra leading size-1 dimension that is
neither the latitude nor the longitude dimension reshapes to exactly the same
result as the same flat buffer declared with only the latitude and longitude
dimensions: the leading degenerate axis is stripped, slicing the buffer to
the leading sub-range, and trailing size-1 stripping leaves two dimensions. -/
theorem C4_time_axis_strip (f : NCFile) (vname tname latD lonD : String)
    (data : List JVal) (a b latCount lonCount : Nat)
    (hts : dimSize f tname = 1)
    (hla : dimSize f latD = a) (hlb : dimSize f lonD = b)
    (ha : a ≠ 0) (hb : b ≠ 0)
    (ht1 : tname ≠ latD) (ht2 : tname ≠ lonD)
    (hlc : latCount = a) (hlonc : lonCount = b) :
    reshapeElevationGrid f
        { name := vname, dimensions := [tname, latD, lonD], data := data }
        latD lonD latCount lonCount
      = reshapeElevationGrid f
          { name := vname, dimensions := [latD, lonD], data := data }
          latD lonD latCount lonCount := by
  subst hlc hlonc
  unfold reshapeElevationGrid
  simp only [List.map_cons, List.map_nil, hts, hla, hlb]
  rw [if_neg (by simp), if_neg (by simp)]
  have step1 : stripLead latD lonD data [(tname, 1), (latD, latCount), (lonD, lonCount)]
      = if 2 < ([(tname, 1), (latD, latCount), (lonD, lonCount)] :
            List (String × Nat)).length ∧
            (1 : Nat) = 1 ∧ tname ≠ latD ∧ tname ≠ lonD
        then stripLead latD lonD
               (data.take (sliceProd [(latD, latCount), (lonD, lonCount)]))
               [(latD, latCount), (lonD, lonCount)]
        else (data, [(tname, 1), (latD, latCount), (lonD, lonCount)]) := rfl
  have hstrip : stripLead latD lonD data [(tname, 1), (latD, latCount), (lonD, lonCount)]
      = (data.take (sliceProd [(latD, latCount), (lonD, lonCount)]),
         [(latD, latCount), (lonD, lonCount)]) := by
    rw [step1, if_pos ⟨by simp, rfl, ht1, ht2⟩]
    rfl
  rw [hstrip]
  show reshapeCore latD lonD latCount lonCount
        (data.take (sliceProd [(latD, latCount), (lonD, lonCount)]))
        [(latD, latCount), (lonD, lonCount)]
      = reshapeCore latD lonD latCount lonCount data [(latD, latCount), (lonD, lonCount)]
  have hsp : sliceProd [(latD, latCount), (lonD, lonCount)] = latCount * lonCount := by
    simp only [sliceProd, List.foldl_cons, List.foldl_nil, if_neg ha, if_neg hb]
    ring
  rw [hsp]
  rcases lt_or_le data.length (latCount * lonCount) with hlen | hlen
  · have hlen1 : (data.take (latCount * lonCount)).length < latCount * lonCount := by
      rw [List.length_take]
      omega
    unfold reshapeCore
    simp only [resolvedFirstSize, resolvedSecondSize, if_neg ha, if_neg hb]
    rw [if_pos hlen1, if_pos hlen]
  · exact reshapeCore_take latD lonD latD lonD latCount lonCount latCount lonCount
      data ha hb (le_refl _) hlen

/-- C4 witness: the spec scenario (time=1, lat=2, lon=3) on a concrete buffer. -/
theorem C4_time_axis_strip_witness :
    reshapeElevationGrid
        { dimensions := [("time", 1), ("lat", 2), ("lon", 3)], vars := [] }
        { name := "elev", dimensions := ["time", "lat", "lon"],
          data := [JVal.num 1, JVal.num 2, JVal.num 3, JVal.num 4, JVal.num 5,
                   JVal.num 6] }
        "lat" "lon" 2 3
      = reshapeElevationGrid
          { dimensions := [("time", 1), ("lat", 2), ("lon", 3)], vars := [] }
          { name := "elev", dimensions := ["lat", "lon"],
            data := [JVal.num 1, JVal.num 2, JVal.num 3, JVal.num 4, JVal.num 5,
                     JVal.num 6] }
          "lat" "lon" 2 3 :=
  C4_time_axis_strip
    { dimensions := [("time", 1), ("lat", 2), ("lon", 3)], vars := [] }
    "elev" "time" "lat" "lon"
    [JVal.num 1, JVal.num 2, JVal.num 3, JVal.num 4, JVal.num 5, JVal.num 6]
    2 3 2 3 (by decide) (by decide) (by decide) (by decide) (by decide)
    (by decide) (by decide) rfl rfl

/-- C6: any load whose input fails resolution (parseNetCDF error) or the
structural validation of buildTerrainFromGrid (short latitude or longitude,
row count mismatch, or a row length mismatch) leaves the previously loaded
scene — terrain and base plate — unchanged, the build aborting before
clearModel runs. -/
theorem C6_rollback (prev : Scene) (f : NCFile) (sx sy sz th : JVal)
    (h : ∀ ds, parseNetCDF f = .ok ds →
      ds.lat.length < 2 ∨ ds.lon.length < 2 ∨
        ds.elevation.length ≠ ds.lat.length ∨
        ∃ row ∈ ds.elevation, row.length ≠ ds.lon.length) :
    loadNcFile prev f sx sy sz th = prev := by
  cases hp : parseNetCDF f with
  | error e =>
    unfold loadNcFile
    rw [hp]
  | ok ds =>
    have hd := h ds hp
    unfold loadNcFile
    rw [hp]
    show (match buildTerrainFromGrid prev ds.lat ds.lon ds.elevation sx sy sz th with
          | .error e => e.2
          | .ok scene => scene) = prev
    unfold buildTerrainFromGrid
    by_cases h1 : ds.lat.length < 2
    · rw [if_pos h1]
    · rw [if_neg h1]
      by_cases h2 : ds.lon.length < 2
      · rw [if_pos h2]
      · rw [if_neg h2]
        by_cases h3 : ds.elevation.length ≠ ds.lat.length
        · rw [if_pos h3]
        · rw [if_neg h3]
          have h4 : ∃ row ∈ ds.elevation, row.length ≠ ds.lon.length := by tauto
          rw [if_pos h4]

/-- C6 witness: loading a container with no variables leaves a previously
loaded scene untouched. -/
theorem C6_rollback_witness :
    loadNcFile sampleScene emptyNCFile (JVal.num 1) (JVal.num 1) (JVal.num 1)
        (JVal.num 5) = sampleScene :=
  C6_rollback sampleScene emptyNCFile _ _ _ _ (fun ds hds => by
    rw [show parseNetCDF emptyNCFile = .error .missingLatLon from rfl] at hds
    exact Except.noConfusion hds)

theorem height_nonfinite (v : JVal) (m z : ℚ) (h : v.isFinite = false) :
    (jmul (jsub v (JVal.num m)) (JVal.num z)).isFinite = false := by
  cases v with
  | num q => simp [JVal.isFinite] at h
  | nan => rfl
  | inf =>
    show (if z = 0 then JVal.nan else if 0 < z then JVal.inf else JVal.ninf).isFinite
      = false
    split_ifs <;> rfl
  | ninf =>
    show (if z = 0 then JVal.nan else if 0 < z then JVal.ninf else JVal.inf).isFinite
      = false
    split_ifs <;> rfl

/-- C1: for every structurally valid grid whose elevation entries are all
finite and whose scanned range maxElev - minElev strictly exceeds the 1e-6
epsilon floor, every vertex height assigned by buildTerrainFromGrid at grid
position (r, c) equals (elevation[r][c] - minElev) * (FIXED_VISUAL_SCALE /
elevRange), every height lies in [0, FIXED_VISUAL_SCALE], the minimum height 0
is attained, and the maximum height FIXED_VISUAL_SCALE = 0.3 is attained. -/
theorem C1_height_normalization (lat lon : List JVal) (grid : List (List JVal))
    (hlat : 2 ≤ lat.length) (hlon : 2 ≤ lon.length)
    (hrows : grid.length = lat.length)
    (hrect : ∀ row ∈ grid, row.length = lon.length)
    (hfin : ∀ row ∈ grid, ∀ v ∈ row, v.isFinite = true)
    (hrange : 1 / 1000000 < maxElevOf lon.length grid - minElevOf lon.length grid) :
    (∀ r c, r < grid.length → c < lon.length →
      (terrainHeights lat lon grid).getD (c + r * lon.length) JVal.nan
        = jmul (jsub ((grid.getD r []).getD c JVal.nan)
                     (JVal.num (minElevOf lon.length grid)))
               (JVal.num (FIXED_VISUAL_SCALE / elevRangeOf lon.length grid)))
    ∧ (∀ hv ∈ terrainHeights lat lon grid,
        ∃ q : ℚ, hv = JVal.num q ∧ 0 ≤ q ∧ q ≤ FIXED_VISUAL_SCALE)
    ∧ JVal.num 0 ∈ terrainHeights lat lon grid
    ∧ JVal.num FIXED_VISUAL_SCALE ∈ terrainHeights lat lon grid := by
  have hlon1 : 1 ≤ lon.length := by omega
  have hlat1 : 1 ≤ lat.length := by omega
  have hL : 0 < lon.length := hlon1
  have hEq := terrainHeights_eq lat lon grid hlat1 hlon1
  have hg0 : 0 < grid.length := by omega
  have hrow0mem : grid.getD 0 [] ∈ grid := by
    rw [List.getD_eq_getElem grid [] hg0]
    exact List.getElem_mem hg0
  have hc0 : 0 < (grid.getD 0 []).length := by
    rw [hrect _ hrow0mem]
    exact hL
  have hv00 : (grid.getD 0 []).getD 0 JVal.nan ∈ grid.flatten :=
    entry_mem_flatten grid 0 0 hg0 hc0
  have hfin2 : ∀ v ∈ grid.flatten, v.isFinite = true := by
    intro v hv
    rcases List.mem_flatten.mp hv with ⟨row, hrow, hvr⟩
    exact hfin row hrow v hvr
  have hne : finVals grid.flatten ≠ [] := by
    have hf := hfin2 _ hv00
    rcases hq : (grid.getD 0 []).getD 0 JVal.nan with q | _ | _ | _
    · exact List.ne_nil_of_mem ((mem_finVals _ q).mpr (hq ▸ hv00))
    all_goals (rw [hq] at hf; simp [JVal.isFinite] at hf)
  have hmin := scanMinMax_fst_spec lon.length grid hrect hne
  have hmax := scanMinMax_snd_spec lon.length grid hrect hne
  have hdpos : (0 : ℚ) < maxElevOf lon.length grid - minElevOf lon.length grid :=
    lt_trans (by norm_num) hrange
  have hdne : maxElevOf lon.length grid - minElevOf lon.length grid ≠ 0 :=
    ne_of_gt hdpos
  have hrangeEq : elevRangeOf lon.length grid
      = maxElevOf lon.length grid - minElevOf lon.length grid := by
    unfold elevRangeOf
    exact max_eq_left (le_of_lt hrange)
  have hzdef : zScaleBaseOf lon.length grid
      = FIXED_VISUAL_SCALE / (maxElevOf lon.length grid - minElevOf lon.length grid) := by
    unfold zScaleBaseOf
    rw [hrangeEq]
  have hz : 0 < zScaleBaseOf lon.length grid := by
    rw [hzdef]
    apply div_pos _ hdpos
    unfold FIXED_VISUAL_SCALE
    norm_num
  refine ⟨?_, ?_, ?_, ?_⟩
  · intro r c hr hc
    rw [hEq, getD_map_range _ _ _ _ (index_lt lon.length r c lat.length hc (hrows ▸ hr)),
        index_div lon.length r c hc, index_mod lon.length r c hc]
    rfl
  · intro hval hmem
    rw [hEq] at hmem
    rcases List.mem_map.mp hmem with ⟨i, hiR, rfl⟩
    have hiN := List.mem_range.mp hiR
    have hiN2 : i < lat.length * lon.length := by
      rw [Nat.mul_comm]
      exact hiN
    have hiy : i / lon.length < grid.length := by
      rw [hrows]
      exact (Nat.div_lt_iff_lt_mul hL).mpr hiN2
    have hix : i % lon.length < lon.length := Nat.mod_lt i hL
    have hrowmem : grid.getD (i / lon.length) [] ∈ grid := by
      rw [List.getD_eq_getElem grid [] hiy]
      exact List.getElem_mem hiy
    have hcx : i % lon.length < (grid.getD (i / lon.length) []).length := by
      rw [hrect _ hrowmem]
      exact hix
    have hventry : (grid.getD (i / lon.length) []).getD (i % lon.length) JVal.nan
        ∈ grid.flatten := entry_mem_flatten grid _ _ hiy hcx
    have hvfin := hfin2 _ hventry
    rcases hq : (grid.getD (i / lon.length) []).getD (i % lon.length) JVal.nan
      with q | _ | _ | _
    · rw [hq] at hventry
      have hqmem : q ∈ finVals grid.flatten := (mem_finVals _ q).mpr hventry
      have hminle := hmin.2 q hqmem
      have hmaxge := hmax.2 q hqmem
      refine ⟨(q - minElevOf lon.length grid) * zScaleBaseOf lon.length grid,
        ?_, ?_, ?_⟩
      · simp only [jsub, jadd, jneg, jmul, JVal.num.injEq]
        ring
      · exact mul_nonneg (sub_nonneg.mpr hminle) (le_of_lt hz)
      · calc (q - minElevOf lon.length grid) * zScaleBaseOf lon.length grid
            ≤ (maxElevOf lon.length grid - minElevOf lon.length grid) *
                zScaleBaseOf lon.length grid :=
              mul_le_mul_of_nonneg_right (sub_le_sub_right hmaxge _) (le_of_lt hz)
          _ = FIXED_VISUAL_SCALE := by
              rw [hzdef, mul_comm, div_mul_cancel₀ _ hdne]
    all_goals (rw [hq] at hvfin; simp [JVal.isFinite] at hvfin)
  · rcases flatten_mem_entry grid _ hmin.1 with ⟨r, hr, c, hc, hcEq⟩
    have hc2 : c < lon.length := by
      have hrowmem : grid.getD r [] ∈ grid := by
        rw [List.getD_eq_getElem grid [] hr]
        exact List.getElem_mem hr
      rw [← hrect _ hrowmem]
      exact hc
    have hlt := index_lt lon.length r c lat.length hc2 (hrows ▸ hr)
    rw [hEq]
    refine List.mem_map.mpr ⟨c + r * lon.length, List.mem_range.mpr hlt, ?_⟩
    rw [index_div lon.length r c hc2, index_mod lon.length r c hc2, hcEq]
    simp only [jsub, jadd, jneg, jmul, JVal.num.injEq]
    ring
  · rcases flatten_mem_entry grid _ hmax.1 with ⟨r, hr, c, hc, hcEq⟩
    have hc2 : c < lon.length := by
      have hrowmem : grid.getD r [] ∈ grid := by
        rw [List.getD_eq_getElem grid [] hr]
        exact List.getElem_mem hr
      rw [← hrect _ hrowmem]
      exact hc
    have hlt := index_lt lon.length r c lat.length hc2 (hrows ▸ hr)
    rw [hEq]
    refine List.mem_map.mpr ⟨c + r * lon.length, List.mem_range.mpr hlt, ?_⟩
    rw [index_div lon.length r c hc2, index_mod lon.length r c hc2, hcEq]
    simp only [jsub, jadd, jneg, jmul, JVal.num.injEq]
    rw [show maxElevOf lon.length grid + -minElevOf lon.length grid
          = maxElevOf lon.length grid - minElevOf lon.length grid from by ring,
        hzdef, mul_comm, div_mul_cancel₀ _ hdne]

/-- C1 witness: the spec scenario lat = [0,1], lon = [0,1],
elevation = [[0,10],[10,0]], whose heights are exactly 0, 0.3, 0.3, 0. -/
theorem C1_height_normalization_witness :
    JVal.num 0 ∈ terrainHeights [JVal.num 0, JVal.num 1] [JVal.num 0, JVal.num 1]
        [[JVal.num 0, JVal.num 10], [JVal.num 10, JVal.num 0]]
    ∧ JVal.num FIXED_VISUAL_SCALE ∈
        terrainHeights [JVal.num 0, JVal.num 1] [JVal.num 0, JVal.num 1]
          [[JVal.num 0, JVal.num 10], [JVal.num 10, JVal.num 0]] :=
  ⟨(C1_height_normalization [JVal.num 0, JVal.num 1] [JVal.num 0, JVal.num 1]
      [[JVal.num 0, JVal.num 10], [JVal.num 10, JVal.num 0]]
      (by decide) (by decide) (by decide) (by decide) (by decide)
      (by rw [show maxElevOf ([JVal.num 0, JVal.num 1] : List JVal).length
                [[JVal.num 0, JVal.num 10], [JVal.num 10, JVal.num 0]] = 10 from rfl,
              show minElevOf ([JVal.num 0, JVal.num 1] : List JVal).length
                [[JVal.num 0, JVal.num 10], [JVal.num 10, JVal.num 0]] = 0 from rfl]
          norm_num)).2.2.1,
   (C1_height_normalization [JVal.num 0, JVal.num 1] [JVal.num 0, JVal.num 1]
      [[JVal.num 0, JVal.num 10], [JVal.num 10, JVal.num 0]]
      (by decide) (by decide) (by decide) (by decide) (by decide)
      (by rw [show maxElevOf ([JVal.num 0, JVal.num 1] : List JVal).length
                [[JVal.num 0, JVal.num 10], [JVal.num 10, JVal.num 0]] = 10 from rfl,
              show minElevOf ([JVal.num 0, JVal.num 1] : List JVal).length
                [[JVal.num 0, JVal.num 10], [JVal.num 10, JVal.num 0]] = 0 from rfl]
          norm_num)).2.2.2⟩

/-- C8: for a structurally valid grid containing a non-finite elevation entry
(and at least one finite entry), buildTerrainFromGrid completes without any
error, yet the vertex height at every non-finite entry's grid position is
itself non-finite — the non-finite value is skipped only by the min/max scan,
not by the per-vertex height assignment — so some height is non-finite and
the min-0 / max-0.3 normalization postcondition fails for such grids. -/
theorem C8_nonfinite_heights (prev : Scene) (lat lon : List JVal)
    (grid : List (List JVal)) (sx sy sz th : JVal)
    (hlat : 2 ≤ lat.length) (hlon : 2 ≤ lon.length)
    (hrows : grid.length = lat.length)
    (hrect : ∀ row ∈ grid, row.length = lon.length)
    (hfin : ∃ row ∈ grid, ∃ v ∈ row, v.isFinite = true)
    (hnf : ∃ row ∈ grid, ∃ v ∈ row, v.isFinite = false) :
    (∃ scene, buildTerrainFromGrid prev lat lon grid sx sy sz th = .ok scene)
    ∧ (∀ r c, r < grid.length → c < lon.length →
        ((grid.getD r []).getD c JVal.nan).isFinite = false →
        ((terrainHeights lat lon grid).getD (c + r * lon.length) JVal.nan).isFinite
          = false)
    ∧ (∃ hv ∈ terrainHeights lat lon grid, hv.isFinite = false)
    ∧ ¬ (∀ hv ∈ terrainHeights lat lon grid,
          ∃ q : ℚ, hv = JVal.num q ∧ 0 ≤ q ∧ q ≤ FIXED_VISUAL_SCALE) := by
  have hlon1 : 1 ≤ lon.length := by omega
  have hlat1 : 1 ≤ lat.length := by omega
  have hL : 0 < lon.length := hlon1
  have hEq := terrainHeights_eq lat lon grid hlat1 hlon1
  have hpart2 : ∀ r c, r < grid.length → c < lon.length →
      ((grid.getD r []).getD c JVal.nan).isFinite = false →
      ((terrainHeights lat lon grid).getD (c + r * lon.length) JVal.nan).isFinite
        = false := by
    intro r c hr hc hvf
    rw [hEq, getD_map_range _ _ _ _ (index_lt lon.length r c lat.length hc (hrows ▸ hr)),
        index_div lon.length r c hc, index_mod lon.length r c hc]
    exact height_nonfinite _ _ _ hvf
  have hpart3 : ∃ hv ∈ terrainHeights lat lon grid, hv.isFinite = false := by
    rcases hnf with ⟨row, hrow, v, hv, hvfalse⟩
    rcases List.getElem_of_mem hrow with ⟨r, hr, hrEq⟩
    rcases List.getElem_of_mem hv with ⟨c, hcr, hcEq⟩
    have hgetDrow : grid.getD r [] = row := by
      rw [List.getD_eq_getElem grid [] hr, hrEq]
    have hc : c < lon.length := by
      rw [← hrect row hrow]
      exact hcr
    have hentry : (grid.getD r []).getD c JVal.nan = v := by
      rw [hgetDrow, List.getD_eq_getElem row JVal.nan hcr, hcEq]
    have hlt := index_lt lon.length r c lat.length hc (hrows ▸ hr)
    refine ⟨(terrainHeights lat lon grid).getD (c + r * lon.length) JVal.nan, ?_, ?_⟩
    · have hlen : c + r * lon.length < (terrainHeights lat lon grid).length := by
        rw [hEq, List.length_map, List.length_range]
        exact hlt
      rw [List.getD_eq_getElem _ _ hlen]
      exact List.getElem_mem hlen
    · refine hpart2 r c hr hc ?_
      rw [hentry]
      exact hvfalse
  refine ⟨?_, hpart2, hpart3, ?_⟩
  · have hcols : ¬ ∃ row ∈ grid, row.length ≠ lon.length := by
      rintro ⟨row, hrow, hne2⟩
      exact hne2 (hrect row hrow)
    have hrowsne : ¬ grid.length ≠ lat.length := fun hh => hh hrows
    unfold buildTerrainFromGrid
    rw [if_neg (by omega : ¬ lat.length < 2), if_neg (by omega : ¬ lon.length < 2),
        if_neg hrowsne, if_neg hcols,
        if_neg (by omega : ¬ (lon.length - 1 = 0 ∨ lat.length - 1 = 0))]
    exact ⟨_, rfl⟩
  · intro hall
    rcases hpart3 with ⟨hv, hmem, hvf⟩
    rcases hall hv hmem with ⟨q, rfl, _, _⟩
    simp [JVal.isFinite] at hvf

/-- C8 witness: the grid [[0, NaN], [1, 2]] builds without error and its NaN
cell yields a non-finite height. -/
theorem C8_nonfinite_heights_witness :
    (∃ scene, buildTerrainFromGrid sampleScene [JVal.num 0, JVal.num 1]
        [JVal.num 0, JVal.num 1] [[JVal.num 0, JVal.nan], [JVal.num 1, JVal.num 2]]
        (JVal.num 1) (JVal.num 1) (JVal.num 1) (JVal.num 5) = .ok scene)
    ∧ (∃ hv ∈ terrainHeights [JVal.num 0, JVal.num 1] [JVal.num 0, JVal.num 1]
        [[JVal.num 0, JVal.nan], [JVal.num 1, JVal.num 2]], hv.isFinite = false) :=
  ⟨(C8_nonfinite_heights sampleScene [JVal.num 0, JVal.num 1] [JVal.num 0, JVal.num 1]
      [[JVal.num 0, JVal.nan], [JVal.num 1, JVal.num 2]]
      (JVal.num 1) (JVal.num 1) (JVal.num 1) (JVal.num 5)
      (by decide) (by decide) (by decide) (by decide) (by decide) (by decide)).1,
   (C8_nonfinite_heights sampleScene [JVal.num 0, JVal.num 1] [JVal.num 0, JVal.num 1]
      [[JVal.num 0, JVal.nan], [JVal.num 1, JVal.num 2]]
      (JVal.num 1) (JVal.num 1) (JVal.num 1) (JVal.num 5)
      (by decide) (by decide) (by decide) (by decide) (by decide) (by decide)).2.2.1⟩
